import Mathlib

/-!
Shallow embedding of the core NLP modules of the voice-to-action pipeline
(`nlp/intent_classifier.py`, `nlp/entity_extractor.py`,
`nlp/action_decider.py`), together with proofs of the specified
properties of text normalization, entity extraction and action decision.
Python strings are modelled as Lean `String`/`List Char` (ASCII character
classes model the regex classes `\w`, `\s`, `\d`).
-/

namespace VoicePipeline

/-- ASCII model of Python's regex class `\w`: alphanumeric or underscore. -/
def isWordChar (c : Char) : Bool := c.isAlphanum || c = '_'

/-- ASCII model of Python's whitespace class `\s` (also the separators of
`str.split()` with no argument). -/
def isSpaceChar (c : Char) : Bool :=
  c = ' ' || c = '\t' || c = '\n' || c = '\r' || c = '\x0b' || c = '\x0c'

/-- Python `text.lower()` on a list of characters (ASCII case mapping). -/
def pyLower (s : List Char) : List Char := s.map Char.toLower

/-- Model of `re.sub(r'[^\w\s]', ' ', text)`: every character that is neither a word
character nor whitespace is replaced by a single space. -/
def subNonWord (s : List Char) : List Char :=
  s.map fun c => if isWordChar c || isSpaceChar c then c else ' '

/-- Python `str.split()` (no argument): the maximal runs of non-whitespace
characters, in order; empty chunks are dropped. -/
def pySplit (s : List Char) : List (List Char) :=
  match s with
  | [] => []
  | c :: cs =>
    if isSpaceChar c then pySplit cs
    else (c :: cs.takeWhile (fun d => !isSpaceChar d)) ::
      pySplit (cs.dropWhile (fun d => !isSpaceChar d))
termination_by s.length
decreasing_by
  · simp only [List.length_cons]
    exact Nat.lt_succ_of_le (Nat.le_refl _)
  · simp only [List.length_cons]
    exact Nat.lt_succ_of_le (List.dropWhile_sublist _).length_le

/-- Model of `' '.join(words)` on lists of characters. -/
def joinSpace : List (List Char) → List Char
  | [] => []
  | [w] => w
  | w :: w' :: ws => w ++ ' ' :: joinSpace (w' :: ws)

/-- Character-level body of `IntentClassifier.preprocess_text`:
lowercase, replace non-word/non-space characters by spaces, then
`' '.join(text.split())` (collapse whitespace and trim). -/
def preprocessChars (s : List Char) : List Char :=
  joinSpace (pySplit (subNonWord (pyLower s)))

/-- Model of `IntentClassifier.preprocess_text`: clean and normalize text. -/
def preprocess_text (s : String) : String :=
  ⟨preprocessChars s.data⟩


/-! ### Entity extraction (`nlp/entity_extractor.py`) -/

/-- Is `needle` a prefix-at-some-position (contiguous substring) of the
list? Auxiliary for Python's `in` test on strings. -/
def infixOfChars (needle : List Char) : List Char → Bool
  | [] => needle.isEmpty
  | c :: t => needle.isPrefixOf (c :: t) || infixOfChars needle t

/-- Python's substring test `needle in hay`. -/
def containsSubstr (hay needle : String) : Bool :=
  infixOfChars needle.data hay.data

/-- Python `text.lower()` on strings (ASCII case mapping). -/
def lowerStr (s : String) : String := ⟨pyLower s.data⟩

/-- Python `str.title()` on a list of characters: a letter is uppercased
when the previous character is not a letter, lowercased otherwise. The
flag records whether the previous character was a letter. -/
def titleChars : List Char → Bool → List Char
  | [], _ => []
  | c :: cs, prevAlpha =>
    (if c.isAlpha then (if prevAlpha then c.toLower else c.toUpper) else c)
      :: titleChars cs c.isAlpha

/-- Python `str.title()` on strings. -/
def titleStr (s : String) : String := ⟨titleChars s.data false⟩

/-- Model of `EntityExtractor.location_keywords`: the static gazetteer of Indian
cities and areas. -/
def location_keywords : List String :=
  ["mumbai", "delhi", "bangalore", "pune", "chennai", "kolkata",
   "hyderabad", "ahmedabad", "gurgaon", "noida", "thane", "navi mumbai",
   "andheri", "powai", "bandra", "worli", "kurla", "ghatkopar",
   "khargar", "vashi", "panvel", "whitefield", "koramangala",
   "indiranagar", "malleswaram", "mg road", "connaught place",
   "saket", "vasant kunj", "dwarka", "rohini", "ghaziabad",
   "faridabad", "kashmir", "tier"]

/-- Model of `list(dict.fromkeys(locations))`: deduplication keeping the first
occurrence of each element, preserving order. `seen` accumulates the
elements already emitted. -/
def dedupFirstAux : List String → List String → List String
  | [], _ => []
  | x :: xs, seen =>
    if seen.contains x then dedupFirstAux xs seen
    else x :: dedupFirstAux xs (x :: seen)

/-- Model of `list(dict.fromkeys(locations))`, with no elements seen yet. -/
def dedupFirst (l : List String) : List String := dedupFirstAux l []

/-- The deduplicated location-candidate list gathered by
`EntityExtractor.extract_locations`: spaCy NER entities labelled GPE/LOC
(the spaCy model is an external dependency, so its output is passed in as
an explicit list of (span text, label) pairs), followed by the title-cased
gazetteer keywords occurring in the lowercased text. -/
def location_candidates (nerEnts : List (String × String)) (text : String) : List String :=
  let text_lower := lowerStr text
  let nerLocs := (nerEnts.filter fun p => p.2 = "GPE" || p.2 = "LOC").map fun p => p.1
  let kwLocs := (location_keywords.filter fun k => containsSubstr text_lower k).map titleStr
  dedupFirst (nerLocs ++ kwLocs)

/-- Model of `EntityExtractor.extract_locations`: assign `(pickup_location,
drop_location)` from the candidate list, branching on connector words
(`" se "`, `" from "`, `" to "`) when there are two or more candidates
and on cue words (`"pickup"`, `"se"`, `"drop"`, `"delivery"`) when there
is exactly one. -/
def extract_locations (nerEnts : List (String × String)) (text : String) :
    Option String × Option String :=
  let text_lower := lowerStr text
  let locations := location_candidates nerEnts text
  if locations.length ≥ 2 then
    if containsSubstr text_lower " se " || containsSubstr text_lower " from " then
      (locations[0]?, locations[1]?)
    else if containsSubstr text_lower " to " then
      (locations[0]?, locations[1]?)
    else
      (locations[0]?, locations[1]?)
  else if locations.length = 1 then
    if containsSubstr text_lower "pickup" || containsSubstr text_lower "se" then
      (locations[0]?, none)
    else if containsSubstr text_lower "drop" || containsSubstr text_lower "delivery" then
      (none, locations[0]?)
    else (none, none)
  else (none, none)

/-- Character class `[\s-]`: the optional separator class after the `+91` country code. -/
def isSepChar (c : Char) : Bool := isSpaceChar c || c = '-'

/-- Does `[6-9]\d{9}\b` match starting at index `i` of `s`: ten digits, the first in
6–9, followed by a word boundary (end of string or a non-word character). -/
def phoneRunAt (s : List Char) (i : Nat) : Bool :=
  let seg := (s.drop i).take 10
  decide (seg.length = 10) &&
  (match seg with
   | c :: _ => decide ('6' ≤ c) && decide (c ≤ '9')
   | [] => false) &&
  seg.all Char.isDigit &&
  (decide (s.length ≤ i + 10) || !isWordChar (s.getD (i + 10) ' '))

/-- The first phone pattern `\b[6-9]\d{9}\b` matches at index `i`: a word
boundary before `i` (start of string or a non-word character at `i - 1`),
then the ten-digit run. -/
def p1At (s : List Char) (i : Nat) : Bool :=
  (decide (i = 0) || !isWordChar (s.getD (i - 1) ' ')) && phoneRunAt s i

/-- The second phone pattern `\+91[\s-]?[6-9]\d{9}\b` matches at index `i`:
the literal `+91`, then either a separator and the ten-digit run, or the
ten-digit run directly (the regex first tries to consume a separator and
backtracks to the empty alternative, which can only succeed when no
separator is present, since a separator is not a digit). -/
def p2At (s : List Char) (i : Nat) : Bool :=
  decide (s.getD i '_' = '+') && decide (s.getD (i + 1) '_' = '9') &&
  decide (s.getD (i + 2) '_' = '1') &&
  ((isSepChar (s.getD (i + 3) '_') && phoneRunAt s (i + 4)) || phoneRunAt s (i + 3))

/-- Model of `re.search` of the first phone pattern: the leftmost index where it
matches, returning the matched ten-digit substring. -/
def searchP1 (s : List Char) : Option (List Char) :=
  match (List.range s.length).find? (fun i => p1At s i) with
  | some i => some ((s.drop i).take 10)
  | none => none

/-- Model of `re.search` of the second phone pattern: the leftmost index where it
matches, returning the matched substring (14 characters with a separator,
13 without). -/
def searchP2 (s : List Char) : Option (List Char) :=
  match (List.range s.length).find? (fun i => p2At s i) with
  | some i => some ((s.drop i).take (if isSepChar (s.getD (i + 3) '_') then 14 else 13))
  | none => none

/-- Model of `EntityExtractor.extract_phone_number`: try the pattern
`\b[6-9]\d{9}\b` first, then `\+91[\s-]?[6-9]\d{9}\b`; return the first
match, or `None` if neither pattern matches anywhere. -/
def extract_phone_number (text : String) : Option String :=
  match searchP1 text.data with
  | some m => some ⟨m⟩
  | none => (searchP2 text.data).map fun m => ⟨m⟩

/-! ### Intent classification (`nlp/intent_classifier.py`) -/

/-- State of `IntentClassifier`. The sklearn TF-IDF vectorizer and
logistic-regression model are external library state; they are abstracted
as one prediction function from preprocessed text to (intent label,
posterior confidence). `is_trained` is the flag set by `train`/`load`. -/
structure IntentClassifier where
  is_trained : Bool
  model : String → String × ℚ

/-- Model of `IntentClassifier.__init__`: a freshly constructed classifier is
untrained (its vectorizer/model exist but are unfitted). -/
def IntentClassifier.new (model : String → String × ℚ) : IntentClassifier :=
  { is_trained := false, model := model }

/-- Model of `IntentClassifier.predict`: raises `Exception("Model not trained or
loaded!")` (modelled as `Except.error`) unless the model is trained;
otherwise preprocesses the text and runs the model. -/
def IntentClassifier.predict (c : IntentClassifier) (text : String) :
    Except String (String × ℚ) :=
  if c.is_trained = false then Except.error "Model not trained or loaded!"
  else Except.ok (c.model (preprocess_text text))

/-! ### Action decision (`nlp/action_decider.py`) -/

/-- The 8-field entity record produced by `EntityExtractor.extract`.
Every field except `fragile` is optional; `fragile` is a boolean that
defaults to `false` rather than `None`. -/
structure EntitySet where
  pickup_location : Option String
  drop_location : Option String
  weight_kg : Option ℚ
  packages : Option Nat
  pickup_time : Option String
  fragile : Bool
  payment_mode : Option String
  phone_number : Option String
deriving DecidableEq

/-- The `parameters` payload of a directive: the three shapes built by
`ActionDecider.decide_action` (pricing call, serviceability call, booking
call with the whole entity set). -/
inductive ApiParams where
  | rate (rfrom rto : Option String) (weight : Option ℚ)
  | serviceability (location : Option String)
  | booking (entities : EntitySet)
deriving DecidableEq

/-- The next-step directive returned by `ActionDecider.decide_action`,
modelled as a record of every key any branch may set; a key absent from
the Python dict is `none`. `contact` and `new_time` hold an inner
`Option` because the dict stores the (possibly `None`) entity value. -/
structure ActionDirective where
  next_action : Option String := none
  message : Option String := none
  missing_fields : Option (List String) := none
  optional_fields : Option (List String) := none
  api_call : Option String := none
  parameters : Option ApiParams := none
  can_proceed : Option Bool := none
  required_info : Option String := none
  ticket_type : Option String := none
  contact : Option (Option String) := none
  priority : Option String := none
  available_modes : Option (List String) := none
  upload_options : Option (List String) := none
  new_time : Option (Option String) := none
  intent : Option String := none
deriving DecidableEq

/-- Model of `ActionDecider.INTENT_REQUIREMENTS`: per-intent (required, optional)
field lists. -/
def INTENT_REQUIREMENTS : List (String × List String × List String) :=
  [("CHECK_RATE", ["pickup_location", "drop_location", "weight_kg"], ["packages"]),
   ("CHECK_SERVICEABILITY", ["drop_location"], ["pickup_location"]),
   ("BOOK_PICKUP", ["pickup_location", "drop_location", "packages"],
     ["pickup_time", "weight_kg", "phone_number", "payment_mode"]),
   ("TRACK_ORDER", [], ["phone_number"]),
   ("CANCEL_ORDER", [], []),
   ("RESCHEDULE_PICKUP", ["pickup_time"], ["pickup_location"]),
   ("RAISE_COMPLAINT", [], ["phone_number"]),
   ("CONNECT_TO_AGENT", [], []),
   ("PAYMENT_QUERY", [], []),
   ("DOCUMENT_UPLOAD_QUERY", [], [])]

/-- Python `entities.get(field) is None` for a field name: looks up the named
`EntitySet` field (`fragile` is a bool, hence never `None`; `.get` of a
key outside the record is `None`). -/
def fieldIsNone (e : EntitySet) (f : String) : Bool :=
  if f = "pickup_location" then e.pickup_location.isNone
  else if f = "drop_location" then e.drop_location.isNone
  else if f = "weight_kg" then e.weight_kg.isNone
  else if f = "packages" then e.packages.isNone
  else if f = "pickup_time" then e.pickup_time.isNone
  else if f = "payment_mode" then e.payment_mode.isNone
  else if f = "phone_number" then e.phone_number.isNone
  else if f = "fragile" then false
  else true

/-- Model of `ActionDecider.find_missing_fields`: the required fields of the intent
that are `None` in the entity set (an intent outside the table has no
requirements). -/
def find_missing_fields (intent : String) (e : EntitySet) : List String :=
  match INTENT_REQUIREMENTS.find? (fun r => r.1 = intent) with
  | none => []
  | some r => r.2.1.filter (fun f => fieldIsNone e f)

/-- Python truthiness of `entities.get(k)` for an optional string field:
`None` and the empty string are falsy, every other string is truthy. -/
def optStrFalsy : Option String → Bool
  | none => true
  | some s => s = ""

/-- The `field_messages` table of
`ActionDecider._generate_missing_fields_message` (`dict.get(f, f)`:
an unknown field name maps to itself). -/
def field_messages (f : String) : String :=
  if f = "pickup_location" then "pickup location"
  else if f = "drop_location" then "delivery location"
  else if f = "weight_kg" then "package weight (in kg)"
  else if f = "packages" then "number of packages"
  else if f = "pickup_time" then "preferred pickup time"
  else if f = "phone_number" then "contact number"
  else f

/-- Python `', '.join`. -/
def joinComma : List String → String
  | [] => ""
  | [x] => x
  | x :: y :: xs => x ++ ", " ++ joinComma (y :: xs)

/-- Model of `ActionDecider._generate_missing_fields_message`: one readable field
gives `"Please provide X."`; several give the comma-joined initial fields
and `" and "` before the last. (The Python code indexes `[-1]` and so is
only ever called with a non-empty list; the `[]` case here is a harmless
total-function default.) -/
def generate_missing_fields_message (missing : List String) : String :=
  let readable := missing.map field_messages
  match readable with
  | [f] => "Please provide " ++ f ++ "."
  | fs => "Please provide " ++ joinComma fs.dropLast ++ " and " ++ fs.getLastD "" ++ "."

/-- Model of `ActionDecider.decide_action`: the one-step decision function from
(intent, entities, confidence) to a directive. `confidence` is accepted
but never used to branch. -/
def decide_action (intent : String) (e : EntitySet) (confidence : ℚ) : ActionDirective :=
  let missing_fields := find_missing_fields intent e
  if intent = "CHECK_RATE" then
    if missing_fields ≠ [] then
      { next_action := some "ASK_MISSING_FIELDS",
        missing_fields := some missing_fields,
        message := some (generate_missing_fields_message missing_fields) }
    else
      { next_action := some "CALCULATE_RATE",
        message := some "Fetching rate information...",
        api_call := some "pricing_api",
        parameters := some (ApiParams.rate e.pickup_location e.drop_location e.weight_kg) }
  else if intent = "CHECK_SERVICEABILITY" then
    if missing_fields ≠ [] then
      { next_action := some "ASK_MISSING_FIELDS",
        missing_fields := some missing_fields,
        message := some (generate_missing_fields_message missing_fields) }
    else
      { next_action := some "CHECK_SERVICE_AREA",
        message := some "Checking serviceability...",
        api_call := some "serviceability_api",
        parameters := some (ApiParams.serviceability e.drop_location) }
  else if intent = "BOOK_PICKUP" then
    if missing_fields ≠ [] then
      { next_action := some "ASK_MISSING_FIELDS",
        missing_fields := some missing_fields,
        message := some (generate_missing_fields_message missing_fields) }
    else
      let recommended :=
        (if optStrFalsy e.pickup_time then ["pickup_time"] else []) ++
        (if optStrFalsy e.phone_number then ["phone_number"] else [])
      if recommended ≠ [] then
        { next_action := some "ASK_OPTIONAL_FIELDS",
          optional_fields := some recommended,
          message := some ("I can book your pickup. Would you like to specify "
            ++ joinComma recommended ++ "?"),
          can_proceed := some true }
      else
        { next_action := some "CREATE_BOOKING",
          message := some "Creating your pickup booking...",
          api_call := some "booking_api",
          parameters := some (ApiParams.booking e) }
  else if intent = "TRACK_ORDER" then
    { next_action := some "ASK_TRACKING_INFO",
      message := some "Please provide your AWB number or order ID to track",
      required_info := some "awb_number" }
  else if intent = "CANCEL_ORDER" then
    { next_action := some "ASK_ORDER_ID",
      message := some "Please provide your order ID or AWB number to cancel",
      required_info := some "order_id" }
  else if intent = "RESCHEDULE_PICKUP" then
    if missing_fields ≠ [] then
      { next_action := some "ASK_MISSING_FIELDS",
        missing_fields := some missing_fields,
        message := some "When would you like to reschedule the pickup?" }
    else
      { next_action := some "ASK_ORDER_ID",
        message := some "Please provide your booking ID to reschedule",
        new_time := some e.pickup_time }
  else if intent = "RAISE_COMPLAINT" then
    { next_action := some "CREATE_TICKET",
      message := some "I will create a complaint ticket. Please describe your issue.",
      ticket_type := some "complaint",
      contact := some e.phone_number }
  else if intent = "CONNECT_TO_AGENT" then
    { next_action := some "TRANSFER_TO_AGENT",
      message := some "Connecting you to a customer service agent...",
      priority := some "normal" }
  else if intent = "PAYMENT_QUERY" then
    { next_action := some "PROVIDE_PAYMENT_INFO",
      message := some "We accept COD, UPI, cards, and online payment. Which option would you prefer?",
      available_modes := some ["COD", "UPI", "Card", "Net Banking"] }
  else if intent = "DOCUMENT_UPLOAD_QUERY" then
    { next_action := some "PROVIDE_UPLOAD_LINK",
      message := some "You can upload documents through our portal or app. What document do you need to upload?",
      upload_options := some ["Invoice", "KYC", "GST Certificate", "ID Proof"] }
  else
    { next_action := some "UNKNOWN",
      message := some "I am not sure how to help with that. Please contact customer support.",
      intent := some intent }


/-! ### Concrete entity sets used as witnesses and counterexamples -/

/-- An entity set with every optional field absent. -/
def emptyEntities : EntitySet :=
  { pickup_location := none, drop_location := none, weight_kg := none,
    packages := none, pickup_time := none, fragile := false,
    payment_mode := none, phone_number := none }

/-- An entity set carrying only a pickup time. -/
def entitiesWithTime : EntitySet := { emptyEntities with pickup_time := some "morning" }

/-- An entity set carrying only a phone number. -/
def entitiesWithPhone : EntitySet := { emptyEntities with phone_number := some "9876543210" }

/-- An entity set ready to book, but with an empty-string pickup time. -/
def bookEntitiesEmptyTime : EntitySet :=
  { pickup_location := some "Andheri", drop_location := some "Powai",
    weight_kg := none, packages := some 2, pickup_time := some "",
    fragile := false, payment_mode := none, phone_number := some "9876543210" }

/-- An entity set ready to book with pickup time and phone both given. -/
def fullBookEntities : EntitySet :=
  { pickup_location := some "Andheri", drop_location := some "Powai",
    weight_kg := none, packages := some 2, pickup_time := some "morning",
    fragile := false, payment_mode := none, phone_number := some "9876543210" }


/-! ### Helper lemmas for text normalization -/

theorem char_toLower_fix (d : Char) (h : ¬(65 ≤ d.toNat ∧ d.toNat ≤ 90)) : d.toLower = d := by
  unfold Char.toLower
  simp only []
  rw [if_neg h]

theorem char_toNat_ofNat_valid {n : Nat} (hv : n.isValidChar) : (Char.ofNat n).toNat = n := by
  rw [Char.ofNat, dif_pos hv]
  rfl

theorem toLower_toLower (c : Char) : c.toLower.toLower = c.toLower := by
  by_cases h : 65 ≤ c.toNat ∧ c.toNat ≤ 90
  · have h1 : c.toLower = Char.ofNat (c.toNat + 32) := by
      unfold Char.toLower
      rw [if_pos h]
    have hv : (c.toNat + 32).isValidChar := Or.inl (by omega)
    apply char_toLower_fix
    rw [h1, char_toNat_ofNat_valid hv]
    omega
  · rw [char_toLower_fix c h]
    exact char_toLower_fix c h

theorem mem_pyLower {c : Char} {s : List Char} (h : c ∈ pyLower s) : ∃ d : Char, c = d.toLower := by
  simp only [pyLower, List.mem_map] at h
  obtain ⟨d, _, rfl⟩ := h
  exact ⟨d, rfl⟩

theorem mem_subNonWord {c : Char} {s : List Char} (h : c ∈ subNonWord s) :
    (isWordChar c || isSpaceChar c) = true ∧ (c = ' ' ∨ c ∈ s) := by
  simp only [subNonWord, List.mem_map] at h
  obtain ⟨d, hd, rfl⟩ := h
  by_cases hw : (isWordChar d || isSpaceChar d) = true
  · rw [if_pos hw]
    exact ⟨hw, Or.inr hd⟩
  · rw [if_neg hw]
    exact ⟨by decide, Or.inl rfl⟩

theorem pySplit_words (s : List Char) :
    ∀ w ∈ pySplit s, w ≠ [] ∧ ∀ c ∈ w, c ∈ s ∧ isSpaceChar c = false := by
  induction s using pySplit.induct with
  | case1 =>
    intro w hw
    simp [pySplit] at hw
  | case2 c cs hsp ih =>
    intro w hw
    rw [pySplit, if_pos hsp] at hw
    obtain ⟨hne, hall⟩ := ih w hw
    refine ⟨hne, fun d hd => ?_⟩
    obtain ⟨hmem, hns⟩ := hall d hd
    exact ⟨List.mem_cons_of_mem c hmem, hns⟩
  | case3 c cs hsp ih =>
    intro w hw
    rw [pySplit, if_neg hsp] at hw
    rcases List.mem_cons.mp hw with rfl | hw'
    · refine ⟨List.cons_ne_nil _ _, fun d hd => ?_⟩
      rcases List.mem_cons.mp hd with rfl | hd'
      · exact ⟨List.mem_cons_self _ _, by simpa using hsp⟩
      · refine ⟨List.mem_cons_of_mem c ((List.takeWhile_sublist _).subset hd'), ?_⟩
        have := List.mem_takeWhile_imp hd'
        simpa using this
    · obtain ⟨hne, hall⟩ := ih w hw'
      refine ⟨hne, fun d hd => ?_⟩
      refine ⟨List.mem_cons_of_mem c ((List.dropWhile_sublist _).subset (hall d hd).1), (hall d hd).2⟩

theorem mem_joinSpace {c : Char} {ws : List (List Char)} (h : c ∈ joinSpace ws) :
    c = ' ' ∨ ∃ w ∈ ws, c ∈ w := by
  induction ws with
  | nil => simp [joinSpace] at h
  | cons w ws ih =>
    cases ws with
    | nil =>
      rw [joinSpace] at h
      exact Or.inr ⟨w, List.mem_cons_self _ _, h⟩
    | cons w' ws' =>
      rw [joinSpace] at h
      rcases List.mem_append.mp h with hw | htail
      · exact Or.inr ⟨w, List.mem_cons_self _ _, hw⟩
      · rcases List.mem_cons.mp htail with rfl | hrest
        · exact Or.inl rfl
        · rcases ih hrest with hsp | ⟨u, hu, hcu⟩
          · exact Or.inl hsp
          · exact Or.inr ⟨u, List.mem_cons_of_mem _ hu, hcu⟩

theorem pySplit_word (w : List Char) (hne : w ≠ [])
    (hns : ∀ c ∈ w, isSpaceChar c = false) : pySplit w = [w] := by
  match w, hne with
  | c :: cs, _ =>
    rw [pySplit, if_neg (by simp [hns c (List.mem_cons_self _ _)])]
    have h1 : cs.takeWhile (fun d => !isSpaceChar d) = cs :=
      List.takeWhile_eq_self_iff.mpr (fun a ha => by
        simp [hns a (List.mem_cons_of_mem c ha)])
    have h2 : cs.dropWhile (fun d => !isSpaceChar d) = [] :=
      List.dropWhile_eq_nil_iff.mpr (fun a ha => by
        simp [hns a (List.mem_cons_of_mem c ha)])
    rw [h1, h2, pySplit]

theorem pySplit_word_append (w rest : List Char) (hne : w ≠ [])
    (hns : ∀ c ∈ w, isSpaceChar c = false) :
    pySplit (w ++ ' ' :: rest) = w :: pySplit rest := by
  match w, hne with
  | c :: cs, _ =>
    rw [List.cons_append, pySplit, if_neg (by simp [hns c (List.mem_cons_self _ _)])]
    have hcs : ∀ a ∈ cs, (fun d => !isSpaceChar d) a = true := fun a ha => by
      simp [hns a (List.mem_cons_of_mem c ha)]
    have h1 : (cs ++ ' ' :: rest).takeWhile (fun d => !isSpaceChar d) = cs := by
      rw [List.takeWhile_append_of_pos hcs, List.takeWhile_cons_of_neg (by decide),
        List.append_nil]
    have h2 : (cs ++ ' ' :: rest).dropWhile (fun d => !isSpaceChar d) = ' ' :: rest := by
      rw [List.dropWhile_append_of_pos hcs, List.dropWhile_cons_of_neg (by decide)]
    rw [h1, h2, pySplit, if_pos (by decide)]

theorem pySplit_joinSpace (ws : List (List Char))
    (h : ∀ w ∈ ws, w ≠ [] ∧ ∀ c ∈ w, isSpaceChar c = false) :
    pySplit (joinSpace ws) = ws := by
  induction ws with
  | nil => rw [joinSpace, pySplit]
  | cons w ws ih =>
    cases ws with
    | nil =>
      rw [joinSpace]
      exact pySplit_word w (h w (List.mem_cons_self _ _)).1 (h w (List.mem_cons_self _ _)).2
    | cons w' ws' =>
      rw [joinSpace, pySplit_word_append w _ (h w (List.mem_cons_self _ _)).1
        (h w (List.mem_cons_self _ _)).2]
      rw [ih (fun u hu => h u (List.mem_cons_of_mem _ hu))]

theorem mem_preprocessChars {c : Char} {s : List Char} (h : c ∈ preprocessChars s) :
    c = ' ' ∨ (c.toLower = c ∧ isWordChar c = true ∧ isSpaceChar c = false) := by
  rw [preprocessChars] at h
  rcases mem_joinSpace h with hsp | ⟨w, hw, hcw⟩
  · exact Or.inl hsp
  · right
    obtain ⟨-, hall⟩ := pySplit_words _ w hw
    obtain ⟨hmem, hns⟩ := hall c hcw
    obtain ⟨hws, hor⟩ := mem_subNonWord hmem
    have hword : isWordChar c = true := by
      rcases Bool.or_eq_true_iff.mp hws with h1 | h1
      · exact h1
      · rw [h1] at hns
        exact Bool.noConfusion hns
    refine ⟨?_, hword, hns⟩
    rcases hor with rfl | hmem2
    · exact absurd hns (by decide)
    · obtain ⟨d, rfl⟩ := mem_pyLower hmem2
      exact toLower_toLower d

theorem preprocessChars_idem (s : List Char) :
    preprocessChars (preprocessChars s) = preprocessChars s := by
  have h1 : pyLower (preprocessChars s) = preprocessChars s := by
    rw [pyLower]
    conv_rhs => rw [← List.map_id (preprocessChars s)]
    apply List.map_congr_left
    intro a ha
    rcases mem_preprocessChars ha with rfl | ⟨hfix, -, -⟩
    · decide
    · exact hfix
  have h2 : subNonWord (preprocessChars s) = preprocessChars s := by
    rw [subNonWord]
    conv_rhs => rw [← List.map_id (preprocessChars s)]
    apply List.map_congr_left
    intro a ha
    rcases mem_preprocessChars ha with rfl | ⟨-, hword, -⟩
    · simp
    · simp [hword]
  have hws : ∀ w ∈ pySplit (subNonWord (pyLower s)),
      w ≠ [] ∧ ∀ c ∈ w, isSpaceChar c = false := by
    intro w hw
    obtain ⟨hne, hall⟩ := pySplit_words _ w hw
    exact ⟨hne, fun c hc => (hall c hc).2⟩
  calc preprocessChars (preprocessChars s)
      = joinSpace (pySplit (preprocessChars s)) := by
        rw [preprocessChars, h1, h2]
    _ = joinSpace (pySplit (joinSpace (pySplit (subNonWord (pyLower s))))) := rfl
    _ = joinSpace (pySplit (subNonWord (pyLower s))) := by
        rw [pySplit_joinSpace _ hws]
    _ = preprocessChars s := rfl


/-! ### Claim theorems -/

/-- Claim C8: text normalization is idempotent: for every string `x`,
`preprocess_text (preprocess_text x) = preprocess_text x`. -/
theorem claim_C8_normalize_idempotent (x : String) :
    preprocess_text (preprocess_text x) = preprocess_text x := by
  show (⟨preprocessChars (preprocess_text x).data⟩ : String) = ⟨preprocessChars x.data⟩
  have h : (preprocess_text x).data = preprocessChars x.data := rfl
  rw [h, preprocessChars_idem]

/-- Claim C7: calling `predict` on a classifier that has not been fit or
restored (i.e. any freshly constructed one, whatever its underlying
model function) fails with the not-trained error, for every input text. -/
theorem claim_C7_predict_untrained (model : String → String × ℚ) (text : String) :
    (IntentClassifier.new model).predict text =
      Except.error "Model not trained or loaded!" := rfl

/-- Claim C6: any intent label outside the requirement table yields the
`UNKNOWN` directive with the generic fallback message and the raw label
echoed back, for every entity set and confidence (and, being a total
function, `decide_action` never raises). -/
theorem claim_C6_unknown_intent (intent : String) (e : EntitySet) (c : ℚ)
    (h : intent ∉ INTENT_REQUIREMENTS.map Prod.fst) :
    decide_action intent e c =
      { next_action := some "UNKNOWN",
        message := some "I am not sure how to help with that. Please contact customer support.",
        intent := some intent } := by
  simp only [INTENT_REQUIREMENTS, List.map_cons, List.map_nil, List.mem_cons,
    List.not_mem_nil, or_false, not_or] at h
  obtain ⟨h1, h2, h3, h4, h5, h6, h7, h8, h9, h10⟩ := h
  simp only [decide_action, if_neg h1, if_neg h2, if_neg h3, if_neg h4, if_neg h5,
    if_neg h6, if_neg h7, if_neg h8, if_neg h9, if_neg h10]

/-- Witness for C6 at the unrecognized label `"FOO"`. -/
theorem claim_C6_unknown_intent_witness :
    decide_action "FOO" emptyEntities 1 =
      { next_action := some "UNKNOWN",
        message := some "I am not sure how to help with that. Please contact customer support.",
        intent := some "FOO" } :=
  claim_C6_unknown_intent "FOO" emptyEntities 1 (by decide)

/-- Claim C3 counterexample: `RESCHEDULE_PICKUP` is in the claim's intent list
but its directive is not a fixed entity-independent template (it requires
`pickup_time` and echoes it back), and `TRACK_ORDER` does not attach the
phone number: its directive is identical with and without one and carries
no contact key. -/
theorem claim_C3_counterexample :
    decide_action "RESCHEDULE_PICKUP" emptyEntities 1 ≠
      decide_action "RESCHEDULE_PICKUP" entitiesWithTime 1 ∧
    decide_action "TRACK_ORDER" entitiesWithPhone 1 =
      decide_action "TRACK_ORDER" emptyEntities 1 ∧
    (decide_action "TRACK_ORDER" entitiesWithPhone 1).contact = none := by
  decide

/-- Claim C3 (amended): for each intent among `TRACK_ORDER`, `CANCEL_ORDER`,
`RAISE_COMPLAINT`, `CONNECT_TO_AGENT`, `PAYMENT_QUERY` and
`DOCUMENT_UPLOAD_QUERY` (the no-required-field intents;
`RESCHEDULE_PICKUP` requires `pickup_time` and is excluded), `decide_action`
returns that intent's one fixed directive template independent of the
entities and confidence, except that `RAISE_COMPLAINT` alone attaches the
(possibly null) phone number as contact context; `TRACK_ORDER` does not. -/
theorem claim_C3_amended_fixed_templates (e e' : EntitySet) (c c' : ℚ) :
    decide_action "TRACK_ORDER" e c = decide_action "TRACK_ORDER" e' c' ∧
    decide_action "CANCEL_ORDER" e c = decide_action "CANCEL_ORDER" e' c' ∧
    decide_action "CONNECT_TO_AGENT" e c = decide_action "CONNECT_TO_AGENT" e' c' ∧
    decide_action "PAYMENT_QUERY" e c = decide_action "PAYMENT_QUERY" e' c' ∧
    decide_action "DOCUMENT_UPLOAD_QUERY" e c = decide_action "DOCUMENT_UPLOAD_QUERY" e' c' ∧
    (decide_action "TRACK_ORDER" e c).contact = none ∧
    decide_action "RAISE_COMPLAINT" e c =
      { next_action := some "CREATE_TICKET",
        message := some "I will create a complaint ticket. Please describe your issue.",
        ticket_type := some "complaint",
        contact := some e.phone_number } :=
  ⟨rfl, rfl, rfl, rfl, rfl, rfl, rfl⟩

/-- Claim C4 counterexample: all `BOOK_PICKUP` required fields are non-null and
both `pickup_time` and `phone_number` are present (`pickup_time = ""`),
yet `decide_action` returns `ASK_OPTIONAL_FIELDS`, not `CREATE_BOOKING`:
the code tests Python truthiness, so an empty string counts as absent. -/
theorem claim_C4_counterexample :
    bookEntitiesEmptyTime.pickup_location.isSome = true ∧
    bookEntitiesEmptyTime.drop_location.isSome = true ∧
    bookEntitiesEmptyTime.packages.isSome = true ∧
    bookEntitiesEmptyTime.pickup_time.isSome = true ∧
    bookEntitiesEmptyTime.phone_number.isSome = true ∧
    (decide_action "BOOK_PICKUP" bookEntitiesEmptyTime 1).next_action =
      some "ASK_OPTIONAL_FIELDS" ∧
    (decide_action "BOOK_PICKUP" bookEntitiesEmptyTime 1).next_action ≠
      some "CREATE_BOOKING" := by
  decide

/-- Claim C4 (amended): for `BOOK_PICKUP` with all required fields non-null, if
`pickup_time` or `phone_number` is absent or empty (Python-falsy) the
result is `ASK_OPTIONAL_FIELDS` with `can_proceed = true` and no booking
is finalized (no API call, no parameters); if both are present and
non-empty the result is `CREATE_BOOKING` with all entities as parameters. -/
theorem claim_C4_amended_book_pickup (e : EntitySet) (c : ℚ)
    (hp : e.pickup_location.isSome = true)
    (hd : e.drop_location.isSome = true)
    (hk : e.packages.isSome = true) :
    ((optStrFalsy e.pickup_time || optStrFalsy e.phone_number) = true →
      (decide_action "BOOK_PICKUP" e c).next_action = some "ASK_OPTIONAL_FIELDS" ∧
      (decide_action "BOOK_PICKUP" e c).can_proceed = some true ∧
      (decide_action "BOOK_PICKUP" e c).api_call = none ∧
      (decide_action "BOOK_PICKUP" e c).parameters = none) ∧
    ((optStrFalsy e.pickup_time || optStrFalsy e.phone_number) = false →
      decide_action "BOOK_PICKUP" e c =
        { next_action := some "CREATE_BOOKING",
          message := some "Creating your pickup booking...",
          api_call := some "booking_api",
          parameters := some (ApiParams.booking e) }) := by
  obtain ⟨p, hpv⟩ := Option.isSome_iff_exists.mp hp
  obtain ⟨d, hdv⟩ := Option.isSome_iff_exists.mp hd
  obtain ⟨k, hkv⟩ := Option.isSome_iff_exists.mp hk
  have hmiss : find_missing_fields "BOOK_PICKUP" e = [] := by
    simp [find_missing_fields, INTENT_REQUIREMENTS, fieldIsNone, List.filter,
      hpv, hdv, hkv]
  constructor
  · intro hfal
    simp only [decide_action, hmiss, if_neg (by decide : ¬("BOOK_PICKUP" = "CHECK_RATE")),
      if_neg (by decide : ¬("BOOK_PICKUP" = "CHECK_SERVICEABILITY")), if_pos rfl]
    rcases Bool.or_eq_true_iff.mp hfal with h1 | h1 <;>
      simp [h1]
  · intro hfal
    rw [Bool.or_eq_false_iff] at hfal
    simp only [decide_action, hmiss, if_neg (by decide : ¬("BOOK_PICKUP" = "CHECK_RATE")),
      if_neg (by decide : ¬("BOOK_PICKUP" = "CHECK_SERVICEABILITY")), if_pos rfl]
    simp [hfal.1, hfal.2]

/-- Witness for C4 (amended) on a fully specified booking request. -/
theorem claim_C4_amended_book_pickup_witness :
    decide_action "BOOK_PICKUP" fullBookEntities 1 =
      { next_action := some "CREATE_BOOKING",
        message := some "Creating your pickup booking...",
        api_call := some "booking_api",
        parameters := some (ApiParams.booking fullBookEntities) } :=
  (claim_C4_amended_book_pickup fullBookEntities 1 (by decide) (by decide) (by decide)).2
    (by decide)

/-- Claim C5: for `CHECK_RATE` with `pickup_location` the only non-null field
among its requirements, the directive is `ASK_MISSING_FIELDS` listing
`drop_location` and `weight_kg`, with the generated prompt naming the two
readable field names joined by `" and "`. -/
theorem claim_C5_check_rate_missing (e : EntitySet) (c : ℚ)
    (hp : e.pickup_location.isSome = true)
    (hd : e.drop_location = none)
    (hw : e.weight_kg = none) :
    decide_action "CHECK_RATE" e c =
      { next_action := some "ASK_MISSING_FIELDS",
        missing_fields := some ["drop_location", "weight_kg"],
        message := some "Please provide delivery location and package weight (in kg)." } := by
  obtain ⟨p, hpv⟩ := Option.isSome_iff_exists.mp hp
  have hmiss : find_missing_fields "CHECK_RATE" e = ["drop_location", "weight_kg"] := by
    simp [find_missing_fields, INTENT_REQUIREMENTS, fieldIsNone, List.filter,
      hpv, hd, hw]
  simp only [decide_action, hmiss, if_pos rfl]
  rfl

/-- Witness for C5 with only a pickup location set. -/
theorem claim_C5_check_rate_missing_witness :
    decide_action "CHECK_RATE"
        { emptyEntities with pickup_location := some "Mumbai" } 1 =
      { next_action := some "ASK_MISSING_FIELDS",
        missing_fields := some ["drop_location", "weight_kg"],
        message := some "Please provide delivery location and package weight (in kg)." } :=
  claim_C5_check_rate_missing { emptyEntities with pickup_location := some "Mumbai" } 1
    (by decide) (by decide) (by decide)

/-! ### Branch equations for `decide_action` -/

/-- Branch equation of `decide_action` on `CHECK_RATE`. -/
theorem decide_action_check_rate (e : EntitySet) (c : ℚ) :
    decide_action "CHECK_RATE" e c =
      if find_missing_fields "CHECK_RATE" e ≠ [] then
        { next_action := some "ASK_MISSING_FIELDS",
          missing_fields := some (find_missing_fields "CHECK_RATE" e),
          message := some (generate_missing_fields_message (find_missing_fields "CHECK_RATE" e)) }
      else
        { next_action := some "CALCULATE_RATE",
          message := some "Fetching rate information...",
          api_call := some "pricing_api",
          parameters := some (ApiParams.rate e.pickup_location e.drop_location e.weight_kg) } := rfl

/-- Branch equation of `decide_action` on `CHECK_SERVICEABILITY`. -/
theorem decide_action_check_serviceability (e : EntitySet) (c : ℚ) :
    decide_action "CHECK_SERVICEABILITY" e c =
      if find_missing_fields "CHECK_SERVICEABILITY" e ≠ [] then
        { next_action := some "ASK_MISSING_FIELDS",
          missing_fields := some (find_missing_fields "CHECK_SERVICEABILITY" e),
          message := some (generate_missing_fields_message
            (find_missing_fields "CHECK_SERVICEABILITY" e)) }
      else
        { next_action := some "CHECK_SERVICE_AREA",
          message := some "Checking serviceability...",
          api_call := some "serviceability_api",
          parameters := some (ApiParams.serviceability e.drop_location) } := rfl

/-- Branch equation of `decide_action` on `BOOK_PICKUP`. -/
theorem decide_action_book_pickup (e : EntitySet) (c : ℚ) :
    decide_action "BOOK_PICKUP" e c =
      if find_missing_fields "BOOK_PICKUP" e ≠ [] then
        { next_action := some "ASK_MISSING_FIELDS",
          missing_fields := some (find_missing_fields "BOOK_PICKUP" e),
          message := some (generate_missing_fields_message (find_missing_fields "BOOK_PICKUP" e)) }
      else if ((if optStrFalsy e.pickup_time then ["pickup_time"] else []) ++
          (if optStrFalsy e.phone_number then ["phone_number"] else [])) ≠ [] then
        { next_action := some "ASK_OPTIONAL_FIELDS",
          optional_fields := some ((if optStrFalsy e.pickup_time then ["pickup_time"] else []) ++
            (if optStrFalsy e.phone_number then ["phone_number"] else [])),
          message := some ("I can book your pickup. Would you like to specify "
            ++ joinComma ((if optStrFalsy e.pickup_time then ["pickup_time"] else []) ++
              (if optStrFalsy e.phone_number then ["phone_number"] else [])) ++ "?"),
          can_proceed := some true }
      else
        { next_action := some "CREATE_BOOKING",
          message := some "Creating your pickup booking...",
          api_call := some "booking_api",
          parameters := some (ApiParams.booking e) } := rfl

/-- Branch equation of `decide_action` on `RESCHEDULE_PICKUP`. -/
theorem decide_action_reschedule (e : EntitySet) (c : ℚ) :
    decide_action "RESCHEDULE_PICKUP" e c =
      if find_missing_fields "RESCHEDULE_PICKUP" e ≠ [] then
        { next_action := some "ASK_MISSING_FIELDS",
          missing_fields := some (find_missing_fields "RESCHEDULE_PICKUP" e),
          message := some "When would you like to reschedule the pickup?" }
      else
        { next_action := some "ASK_ORDER_ID",
          message := some "Please provide your booking ID to reschedule",
          new_time := some e.pickup_time } := rfl

/-- Branch equation of `decide_action` on any intent label outside the requirement table:
falls through every branch to the `UNKNOWN` directive. -/
theorem decide_action_of_unregistered (intent : String) (e : EntitySet) (c : ℚ)
    (h1 : intent ≠ "CHECK_RATE") (h2 : intent ≠ "CHECK_SERVICEABILITY")
    (h3 : intent ≠ "BOOK_PICKUP") (h4 : intent ≠ "TRACK_ORDER")
    (h5 : intent ≠ "CANCEL_ORDER") (h6 : intent ≠ "RESCHEDULE_PICKUP")
    (h7 : intent ≠ "RAISE_COMPLAINT") (h8 : intent ≠ "CONNECT_TO_AGENT")
    (h9 : intent ≠ "PAYMENT_QUERY") (h10 : intent ≠ "DOCUMENT_UPLOAD_QUERY") :
    decide_action intent e c =
      { next_action := some "UNKNOWN",
        message := some "I am not sure how to help with that. Please contact customer support.",
        intent := some intent } := by
  simp only [decide_action, if_neg h1, if_neg h2, if_neg h3, if_neg h4, if_neg h5,
    if_neg h6, if_neg h7, if_neg h8, if_neg h9, if_neg h10]

/-- The generated missing-fields prompt always starts with
`"Please provide "` and hence is never the empty string. -/
theorem generate_missing_fields_message_ne_empty (l : List String) :
    generate_missing_fields_message l ≠ "" := by
  have h15 : ("Please provide " : String).length = 15 := rfl
  have h0 : ("" : String).length = 0 := rfl
  unfold generate_missing_fields_message
  rcases l.map field_messages with _ | ⟨f, _ | ⟨g, fs⟩⟩ <;>
  · intro h
    have hlen := congrArg String.length h
    simp only [String.length_append, h15, h0] at hlen
    omega

/-- The optional-fields booking prompt is never the empty string. -/
theorem book_prompt_ne_empty (r : List String) :
    ("I can book your pickup. Would you like to specify "
      ++ joinComma r ++ "?") ≠ "" := by
  have h50 : ("I can book your pickup. Would you like to specify " : String).length = 50 := rfl
  have h1q : ("?" : String).length = 1 := rfl
  have h0 : ("" : String).length = 0 := rfl
  intro h
  have hlen := congrArg String.length h
  simp only [String.length_append, h50, h1q, h0] at hlen
  omega

/-- Claim C10: every directive returned by `decide_action` — for any intent
label, entity set and confidence — carries a `next_action` tag and a
non-empty message. -/
theorem claim_C10_directive_has_action_and_message (intent : String) (e : EntitySet) (c : ℚ) :
    (decide_action intent e c).next_action.isSome = true ∧
    ∃ m : String, (decide_action intent e c).message = some m ∧ m ≠ "" := by
  by_cases h1 : intent = "CHECK_RATE"
  · subst h1
    rw [decide_action_check_rate]
    by_cases hm : find_missing_fields "CHECK_RATE" e ≠ []
    · rw [if_pos hm]
      exact ⟨rfl, _, rfl, generate_missing_fields_message_ne_empty _⟩
    · rw [if_neg hm]
      exact ⟨rfl, _, rfl, by decide⟩
  by_cases h2 : intent = "CHECK_SERVICEABILITY"
  · subst h2
    rw [decide_action_check_serviceability]
    by_cases hm : find_missing_fields "CHECK_SERVICEABILITY" e ≠ []
    · rw [if_pos hm]
      exact ⟨rfl, _, rfl, generate_missing_fields_message_ne_empty _⟩
    · rw [if_neg hm]
      exact ⟨rfl, _, rfl, by decide⟩
  by_cases h3 : intent = "BOOK_PICKUP"
  · subst h3
    rw [decide_action_book_pickup]
    by_cases hm : find_missing_fields "BOOK_PICKUP" e ≠ []
    · rw [if_pos hm]
      exact ⟨rfl, _, rfl, generate_missing_fields_message_ne_empty _⟩
    · rw [if_neg hm]
      by_cases hr : ((if optStrFalsy e.pickup_time then ["pickup_time"] else []) ++
          (if optStrFalsy e.phone_number then ["phone_number"] else [])) ≠ []
      · rw [if_pos hr]
        exact ⟨rfl, _, rfl, book_prompt_ne_empty _⟩
      · rw [if_neg hr]
        exact ⟨rfl, _, rfl, by decide⟩
  by_cases h4 : intent = "TRACK_ORDER"
  · subst h4
    exact ⟨rfl, _, rfl, by decide⟩
  by_cases h5 : intent = "CANCEL_ORDER"
  · subst h5
    exact ⟨rfl, _, rfl, by decide⟩
  by_cases h6 : intent = "RESCHEDULE_PICKUP"
  · subst h6
    rw [decide_action_reschedule]
    by_cases hm : find_missing_fields "RESCHEDULE_PICKUP" e ≠ []
    · rw [if_pos hm]
      exact ⟨rfl, _, rfl, by decide⟩
    · rw [if_neg hm]
      exact ⟨rfl, _, rfl, by decide⟩
  by_cases h7 : intent = "RAISE_COMPLAINT"
  · subst h7
    exact ⟨rfl, _, rfl, by decide⟩
  by_cases h8 : intent = "CONNECT_TO_AGENT"
  · subst h8
    exact ⟨rfl, _, rfl, by decide⟩
  by_cases h9 : intent = "PAYMENT_QUERY"
  · subst h9
    exact ⟨rfl, _, rfl, by decide⟩
  by_cases h10 : intent = "DOCUMENT_UPLOAD_QUERY"
  · subst h10
    exact ⟨rfl, _, rfl, by decide⟩
  rw [decide_action_of_unregistered intent e c h1 h2 h3 h4 h5 h6 h7 h8 h9 h10]
  exact ⟨rfl, _, rfl, by decide⟩

/-- Claim C1: whenever the deduplicated candidate list has two or more entries,
`extract_locations` assigns the first candidate to `pickup_location` and
the second to `drop_location` — for every NER output and every text,
regardless of which connector words (`" se "`, `" from "`, `" to "`)
appear, since all three branches assign identically. -/
theorem claim_C1_two_candidates_positional (nerEnts : List (String × String))
    (text : String) (h : 2 ≤ (location_candidates nerEnts text).length) :
    extract_locations nerEnts text =
      ((location_candidates nerEnts text)[0]?, (location_candidates nerEnts text)[1]?) := by
  simp only [extract_locations]
  rw [if_pos h]
  split_ifs <;> rfl

/-- Witness for C1: two gazetteer candidates, connector word `to`. -/
theorem claim_C1_two_candidates_positional_witness :
    2 ≤ (location_candidates [] "andheri to powai").length ∧
    extract_locations [] "andheri to powai" = (some "Andheri", some "Powai") := by
  refine ⟨by decide, ?_⟩
  rw [claim_C1_two_candidates_positional [] "andheri to powai" (by decide)]
  decide

/-- Claim C2: with exactly one candidate, the candidate goes to
`pickup_location` when a pickup cue (`"pickup"` or `"se"`, as substrings
of the lowercased text) is present, to `drop_location` when no pickup cue
but a delivery cue (`"drop"` or `"delivery"`) is present, and both stay
null when neither cue occurs. -/
theorem claim_C2_single_candidate_cues (nerEnts : List (String × String)) (text : String)
    (h : (location_candidates nerEnts text).length = 1) :
    ((containsSubstr (lowerStr text) "pickup" || containsSubstr (lowerStr text) "se") = true →
      extract_locations nerEnts text = ((location_candidates nerEnts text)[0]?, none)) ∧
    ((containsSubstr (lowerStr text) "pickup" || containsSubstr (lowerStr text) "se") = false →
      (containsSubstr (lowerStr text) "drop" || containsSubstr (lowerStr text) "delivery") = true →
      extract_locations nerEnts text = (none, (location_candidates nerEnts text)[0]?)) ∧
    ((containsSubstr (lowerStr text) "pickup" || containsSubstr (lowerStr text) "se") = false →
      (containsSubstr (lowerStr text) "drop" || containsSubstr (lowerStr text) "delivery") = false →
      extract_locations nerEnts text = (none, none)) := by
  have h2 : ¬(2 ≤ (location_candidates nerEnts text).length) := by omega
  refine ⟨fun hcue => ?_, fun hnc hdc => ?_, fun hnc hdc => ?_⟩ <;>
    simp only [extract_locations] <;>
    rw [if_neg h2, if_pos h]
  · rw [if_pos hcue]
  · rw [if_neg (by simp [hnc]), if_pos hdc]
  · rw [if_neg (by simp [hnc]), if_neg (by simp [hdc])]

/-- Witness for C2: one NER candidate and the pickup cue `"pickup"`. -/
theorem claim_C2_single_candidate_cues_witness :
    (location_candidates [("Andheri", "GPE")] "pickup please").length = 1 ∧
    extract_locations [("Andheri", "GPE")] "pickup please" = (some "Andheri", none) := by
  refine ⟨by decide, ?_⟩
  rw [(claim_C2_single_candidate_cues [("Andheri", "GPE")] "pickup please" (by decide)).1
    (by decide)]
  decide

/-- The ten-digit run cannot match at an index at or past the end. -/
theorem phoneRunAt_oob (s : List Char) (i : Nat) (h : s.length ≤ i) :
    phoneRunAt s i = false := by
  unfold phoneRunAt
  rw [List.drop_eq_nil_of_le h]
  simp

/-- The first phone pattern cannot match at an index at or past the end. -/
theorem p1At_oob (s : List Char) (i : Nat) (h : s.length ≤ i) : p1At s i = false := by
  unfold p1At
  rw [phoneRunAt_oob s i h, Bool.and_false]

/-- The second phone pattern cannot match at an index at or past the end. -/
theorem p2At_oob (s : List Char) (i : Nat) (h : s.length ≤ i) : p2At s i = false := by
  unfold p2At
  have hd : s.getD i '_' = '_' := by
    rw [List.getD_eq_getElem?_getD, List.getElem?_eq_none h]
    rfl
  rw [hd]
  simp

/-- Search `searchP1` comes back empty exactly when the first pattern matches at
no index. -/
theorem searchP1_eq_none_iff (s : List Char) :
    searchP1 s = none ↔ ∀ i, p1At s i = false := by
  unfold searchP1
  rcases hf : (List.range s.length).find? (fun i => p1At s i) with _ | i
  · constructor
    · intro _ i
      by_cases hlt : i < s.length
      · simpa using List.find?_eq_none.mp hf i (List.mem_range.mpr hlt)
      · exact p1At_oob s i (Nat.le_of_not_lt hlt)
    · intro _
      rfl
  · constructor
    · intro hc
      exact Option.noConfusion hc
    · intro hall
      have hp := List.find?_some hf
      rw [hall i] at hp
      exact Bool.noConfusion hp

/-- Search `searchP2` comes back empty exactly when the second pattern matches
at no index. -/
theorem searchP2_eq_none_iff (s : List Char) :
    searchP2 s = none ↔ ∀ i, p2At s i = false := by
  unfold searchP2
  rcases hf : (List.range s.length).find? (fun i => p2At s i) with _ | i
  · constructor
    · intro _ i
      by_cases hlt : i < s.length
      · simpa using List.find?_eq_none.mp hf i (List.mem_range.mpr hlt)
      · exact p2At_oob s i (Nat.le_of_not_lt hlt)
    · intro _
      rfl
  · constructor
    · intro hc
      exact Option.noConfusion hc
    · intro hall
      have hp := List.find?_some hf
      rw [hall i] at hp
      exact Bool.noConfusion hp

/-- Claim C9: phone-number extraction returns the first match of a ten-digit
sequence with leading digit 6–9 and word boundaries, optionally prefixed
by `+91` and a separator, and `none` exactly when neither pattern matches
anywhere; in particular `"9876543210"` is matched, `"1234567890"` is not
(leading digit outside 6–9), and `"+91 9876543210"` is matched (the bare
ten-digit pattern finds `"9876543210"` after the separator). -/
theorem claim_C9_phone_patterns :
    extract_phone_number "9876543210" = some "9876543210" ∧
    extract_phone_number "1234567890" = none ∧
    extract_phone_number "+91 9876543210" = some "9876543210" ∧
    ∀ s : String, (extract_phone_number s = none ↔
      ((∀ i, p1At s.data i = false) ∧ (∀ i, p2At s.data i = false))) := by
  refine ⟨by decide, by decide, by decide, fun s => ?_⟩
  unfold extract_phone_number
  rcases h1 : searchP1 s.data with _ | m
  · rcases h2 : searchP2 s.data with _ | m2
    · constructor
      · intro _
        exact ⟨(searchP1_eq_none_iff s.data).mp h1, (searchP2_eq_none_iff s.data).mp h2⟩
      · intro _
        rfl
    · constructor
      · intro hc
        exact Option.noConfusion hc
      · intro hall
        have := (searchP2_eq_none_iff s.data).mpr hall.2
        rw [h2] at this
        exact Option.noConfusion this
  · constructor
    · intro hc
      exact Option.noConfusion hc
    · intro hall
      have := (searchP1_eq_none_iff s.data).mpr hall.1
      rw [h1] at this
      exact Option.noConfusion this

end VoicePipeline
